import Mathlib

/-!
# rentNaija — verification of the checkout and property-submission flows

Shallow embedding of the two UI flows of the repository:

* `Checkout` (src/unnamed/part_000): plan selection (`selectedPlanIs`),
  payment-gateway selection (`selectedPaymentMethodIs`) and the conditional
  rendering of the gateway handler component.
* `AddProperty` (src/features/agent/dashboard/components/AddProperty.tsx):
  the 5-step property wizard — `validateStep`, `nextStep`, `prevStep`,
  `handleFileChange`, `removeFile` and `onSubmit`.
* `getUserSubscriptions` (src/features/landing/api/subscriptions.ts).

JavaScript scalar values held in form state are modelled by `JVal`
(distinguishing `undefined`, `null`, strings and numbers, since the code
and the reset/default values distinguish them); browser `File` objects by
`JFile` (name and byte size — the only attributes the code reads).
Asynchronous HTTP calls are modelled by passing the server's outcome as an
explicit argument and collecting the issued requests in the result, so that
"how many requests were sent with which payload" is a plain function of the
inputs.
-/

namespace RentNaija

/-- A JavaScript scalar value as stored in a react-hook-form field:
`undefined`, `null`, a string or a number. -/
inductive JVal where
  | jsUndefined
  | jnull
  | jstr (s : String)
  | jnum (n : Int)
deriving Repr, DecidableEq

/-- `value.toString()` for the non-nullish values, `none` for `null` and
`undefined`.  Mirrors the guard `value !== null && value !== undefined`
followed by `value.toString()` in `onSubmit` (AddProperty.tsx lines 245-247). -/
def JVal.toStr : JVal → Option String
  | .jsUndefined => none
  | .jnull => none
  | .jstr s => some s
  | .jnum n => some (toString n)

/-- A browser `File`: the code only ever reads `file.name` and `file.size`. -/
structure JFile where
  name : String
  size : Nat
deriving Repr, DecidableEq

/-- A toast raised through `showAlert(message, level)` of the alert context. -/
structure Alert where
  message : String
  level : String
deriving Repr, DecidableEq

/-! ## Checkout component (src/unnamed/part_000) -/

/-- `PlansInterface` (imported from `@/types/subscription`, not under src/;
fields taken from the spec's end-to-end scenario and the component's usage:
`id`, `name`, `price`, `currency`, `invoice_interval`). Only `id` is ever
inspected by the logic under verification. -/
structure PlansInterface where
  id : Int
  name : String
  price : Int
  currency : String
  invoice_interval : String
deriving Repr, DecidableEq

/-- The two gateway handler components, `<BankTransfer …/>` and `<Paystack …/>`. -/
inductive HandlerKind where
  | bankTransfer
  | paystack
deriving Repr, DecidableEq

/-- `GatewayI` of the Checkout component.  The `component` render prop is
modelled by its `HandlerKind`; the `icon` JSX element is purely
presentational and not modelled. -/
structure GatewayI where
  title : String
  slug : String
  component : HandlerKind
  active : Bool
  className : String
deriving Repr, DecidableEq

/-- First element of the literal `gateways` array (line 48): Bank Transfer,
active. -/
def bankTransferGateway : GatewayI where
  title := "Bank Transfer"
  slug := "bank-transfer"
  component := .bankTransfer
  active := true
  className := "text-lg font-bold bg-gray-800 text-white rounded hover:shadow-lg"

/-- Second element of the literal `gateways` array (line 49): Paystack,
inactive. -/
def paystackGateway : GatewayI where
  title := "Paystack"
  slug := "paystack"
  component := .paystack
  active := false
  className := "text-lg font-bold bg-blue-200 text-black rounded hover:shadow-lg"

/-- The literal `gateways` array of the Checkout component (lines 47-51):
Bank Transfer is active, Paystack is not. -/
def gateways : List GatewayI := [bankTransferGateway, paystackGateway]

/-- The mutable state of the Checkout component that the claims concern:
`selectedPlan` and `selectedGateway` (both `useState`, initially undefined). -/
structure CheckoutState where
  selectedPlan : Option PlansInterface
  selectedGateway : Option GatewayI
deriving Repr, DecidableEq

/-- `selectedPlanIs(id)` (lines 53-60):
`const set = plans?.filter(r => r.id == id); if (set) { setSelectedPlan(set[0]) }`.
When `plans` is `undefined` the optional chain yields `undefined`, the
`if (set)` guard fails and the state is untouched.  When `plans` is an
array, `filter` returns an array — which is truthy in JavaScript even when
empty — so `setSelectedPlan(set[0])` always runs and stores the first
match, or `undefined` when there is none. -/
def selectedPlanIs (plans : Option (List PlansInterface)) (id : Int)
    (selectedPlan : Option PlansInterface) : Option PlansInterface :=
  match plans with
  | none => selectedPlan
  | some ps => (ps.filter (fun r => r.id == id)).head?

/-- `selectedPaymentMethodIs(slug, active)` (lines 62-71): an inactive
gateway raises `alert('Gateway Not Available')` and returns without touching
state; otherwise the gateway list is filtered by slug (the list is always
defined, so the `if (set)` guard always passes) and `set[0]` is stored.
The second component collects the `alert(...)` messages raised. -/
def selectedPaymentMethodIs (slug : String) (active : Bool)
    (s : CheckoutState) : CheckoutState × List String :=
  if !active then
    (s, ["Gateway Not Available"])
  else
    (⟨s.selectedPlan, (gateways.filter (fun r => r.slug == slug)).head?⟩, [])

/-- What the Checkout component's return statement renders (lines 131-140):
the selected gateway's handler when both a gateway and a plan are selected,
otherwise the payment-method chooser when a plan is selected, otherwise the
plan-selection grid.  The handler closes over the current `selectedPlan`
(it is passed as the `plan` prop). -/
inductive RenderedView where
  | handler (kind : HandlerKind) (plan : Option PlansInterface)
  | selectPaymentMethod
  | planSelection
deriving Repr, DecidableEq

/-- The render dispatch of the Checkout component. -/
def renderCheckout (s : CheckoutState) : RenderedView :=
  match s.selectedGateway, s.selectedPlan with
  | some g, some _ => .handler g.component s.selectedPlan
  | _, _ => if s.selectedPlan.isSome then .selectPaymentMethod else .planSelection

/-! ## AddProperty component — data model -/

/-- `PropertyFormData` (AddProperty.tsx lines 14-39).  Scalar fields are
`JVal` (a freshly mounted form leaves unset fields `undefined`); `amenities`
is the string-array form field; each of the ten media slots holds a `File`
or is empty (`null`/`undefined` — both falsy, never distinguished by the
code for file fields). -/
structure PropertyFormData where
  category_id : JVal
  title : JVal
  description : JVal
  number_of_rooms : JVal
  amount : JVal
  currency_code : JVal
  security_deposit : JVal
  security_deposit_currency_code : JVal
  duration : JVal
  duration_type : JVal
  amenities : List String
  country_code : JVal
  state_code : JVal
  city_code : JVal
  image1 : Option JFile
  image2 : Option JFile
  image3 : Option JFile
  image4 : Option JFile
  image5 : Option JFile
  video1 : Option JFile
  video2 : Option JFile
  video3 : Option JFile
  video4 : Option JFile
  video5 : Option JFile
deriving Repr, DecidableEq

/-- The form state of a freshly mounted `AddProperty`: the `useForm`
`defaultValues` (lines 80-85) set only `amenities`, `currency_code` and
`country_code`; every other field starts out `undefined` (empty for the
media slots). -/
def defaultFormData : PropertyFormData where
  category_id := .jsUndefined
  title := .jsUndefined
  description := .jsUndefined
  number_of_rooms := .jsUndefined
  amount := .jsUndefined
  currency_code := .jstr "NGN"
  security_deposit := .jsUndefined
  security_deposit_currency_code := .jsUndefined
  duration := .jsUndefined
  duration_type := .jsUndefined
  amenities := []
  country_code := .jstr "NG"
  state_code := .jsUndefined
  city_code := .jsUndefined
  image1 := none
  image2 := none
  image3 := none
  image4 := none
  image5 := none
  video1 := none
  video2 := none
  video3 := none
  video4 := none
  video5 := none

/-- `imageFields` (line 87). -/
def imageFields : List String := ["image1", "image2", "image3", "image4", "image5"]

/-- `videoFields` (line 88). -/
def videoFields : List String := ["video1", "video2", "video3", "video4", "video5"]

/-- `MAX_IMAGE_SIZE = 3 * 1024 * 1024` (line 89). -/
def MAX_IMAGE_SIZE : Nat := 3 * 1024 * 1024

/-- `MAX_VIDEO_SIZE = 10 * 1024 * 1024` (line 90). -/
def MAX_VIDEO_SIZE : Nat := 10 * 1024 * 1024

/-- Dynamic access `data[field]` for the ten media slots (the only fields
the code accesses through a string name). -/
def getFileField (d : PropertyFormData) : String → Option JFile
  | "image1" => d.image1
  | "image2" => d.image2
  | "image3" => d.image3
  | "image4" => d.image4
  | "image5" => d.image5
  | "video1" => d.video1
  | "video2" => d.video2
  | "video3" => d.video3
  | "video4" => d.video4
  | "video5" => d.video5
  | _ => none

/-- `setValue(field, v)` for a media slot addressed by its string name. -/
def setFileField (d : PropertyFormData) (field : String) (v : Option JFile) :
    PropertyFormData :=
  match field with
  | "image1" => { d with image1 := v }
  | "image2" => { d with image2 := v }
  | "image3" => { d with image3 := v }
  | "image4" => { d with image4 := v }
  | "image5" => { d with image5 := v }
  | "video1" => { d with video1 := v }
  | "video2" => { d with video2 := v }
  | "video3" => { d with video3 := v }
  | "video4" => { d with video4 := v }
  | "video5" => { d with video5 := v }
  | _ => d

/-- The component-local state of `AddProperty` (lines 65-70) together with
the react-hook-form field values: step index, loading flag, the two preview
maps (`{ [key: string]: string }`, modelled as association lists), the
selected amenity list and the form data. -/
structure AddPropertyState where
  step : Nat
  isLoading : Bool
  imagePreview : List (String × String)
  videoPreview : List (String × String)
  selectedAmenities : List String
  form : PropertyFormData
deriving Repr, DecidableEq

/-- The state of a freshly mounted `AddProperty` instance: `step = 1`,
`isLoading = false`, both preview maps empty, no amenities selected, form
at its `defaultValues`. -/
def initialAddPropertyState : AddPropertyState where
  step := 1
  isLoading := false
  imagePreview := []
  videoPreview := []
  selectedAmenities := []
  form := defaultFormData

/-! ## AddProperty component — file handling and step navigation -/

/-- JavaScript object spread `{ ...prev, [key]: v }` on a string-keyed map:
replaces the value when the key is present, otherwise appends the entry. -/
def insertPreview (m : List (String × String)) (k v : String) :
    List (String × String) :=
  if m.any (fun p => p.1 == k) then
    m.map (fun p => if p.1 == k then (k, v) else p)
  else
    m ++ [(k, v)]

/-- JavaScript `delete map[key]` on a string-keyed map. -/
def deletePreview (m : List (String × String)) (k : String) :
    List (String × String) :=
  m.filter (fun p => p.1 != k)

/-- The data-URL string produced by `FileReader.readAsDataURL(file)`
(line 156): opaque to the component's logic, modelled as an injective
encoding of the file. -/
def dataURL (f : JFile) : String :=
  "data:" ++ f.name ++ ";" ++ toString f.size

/-- The blob URL produced by `URL.createObjectURL(file)` (line 153):
opaque to the component's logic, modelled as an injective encoding of the
file. -/
def objectURL (f : JFile) : String :=
  "blob:" ++ f.name ++ ";" ++ toString f.size

/-- The two media kinds, `type FileType = 'image' | 'video'` (line 41). -/
inductive FileType where
  | image
  | video
deriving Repr, DecidableEq

/-- The size threshold the code applies to a file of the given type:
`type === 'image' ? MAX_IMAGE_SIZE : MAX_VIDEO_SIZE` (line 140). -/
def maxSizeFor : FileType → Nat
  | .image => MAX_IMAGE_SIZE
  | .video => MAX_VIDEO_SIZE

/-- The state and the toasts produced by one event handler invocation. -/
structure HandlerResult where
  state : AddPropertyState
  alerts : List Alert
deriving Repr, DecidableEq

/-- `handleFileChange(fieldName, type)` applied to a change event whose
`event.target.files?.[0]` is `file` (lines 136-157).  No file: return with
no effect.  Oversized file: toast and return, with no state change.
Otherwise the file is stored through `setValue` and, once the reader
finishes, the matching preview entry is inserted (a data URL for images, an
object URL for videos). -/
def handleFileChange (fieldName : String) (ftype : FileType)
    (file : Option JFile) (s : AddPropertyState) : HandlerResult :=
  match file with
  | none => ⟨s, []⟩
  | some f =>
    let maxSize := maxSizeFor ftype
    if f.size > maxSize then
      ⟨s, [⟨"File " ++ f.name ++ " exceeds maximum size limit of "
            ++ toString (maxSize / (1024 * 1024)) ++ "MB", "error"⟩]⟩
    else
      let s1 := { s with form := setFileField s.form fieldName (some f) }
      match ftype with
      | .image =>
        ⟨{ s1 with imagePreview := insertPreview s1.imagePreview fieldName (dataURL f) }, []⟩
      | .video =>
        ⟨{ s1 with videoPreview := insertPreview s1.videoPreview fieldName (objectURL f) }, []⟩

/-- `removeFile(fieldName, type)` (lines 159-174): clears the form value
and deletes the preview entry of the matching kind. -/
def removeFile (fieldName : String) (ftype : FileType)
    (s : AddPropertyState) : AddPropertyState :=
  let s1 := { s with form := setFileField s.form fieldName none }
  match ftype with
  | .image => { s1 with imagePreview := deletePreview s1.imagePreview fieldName }
  | .video => { s1 with videoPreview := deletePreview s1.videoPreview fieldName }

/-- `imageFields.some(field => …)` over the truthiness of the field value
(a `File` is truthy, `null`/`undefined` are falsy) — used both by
`validateStep` case 5 (line 193) and by `onSubmit` (line 227). -/
def hasImageIn (d : PropertyFormData) : Bool :=
  imageFields.any (fun field => (getFileField d field).isSome)

/-- `videoFields.some(field => …)`, see `hasImageIn` (lines 194 and 228). -/
def hasVideoIn (d : PropertyFormData) : Bool :=
  videoFields.any (fun field => (getFileField d field).isSome)

/-- `validateStep()` (lines 176-208).  Steps 1-4 delegate to the
react-hook-form `trigger` on a fixed field list; the structural validator is
modelled as the oracle `triggerOk` (its verdict on a given field list).
Step 5 ignores the structural validator entirely and checks only for at
least one image and at least one video, toasting when one is missing.  A
step outside 1-5 falls through the switch and triggers the empty list.
Returns the boolean verdict and the toasts raised. -/
def validateStep (triggerOk : List String → Bool) (s : AddPropertyState) :
    Bool × List Alert :=
  match s.step with
  | 1 => (triggerOk ["category_id", "title", "number_of_rooms", "description"], [])
  | 2 => (triggerOk ["amount", "currency_code", "security_deposit"], [])
  | 3 => (triggerOk ["duration", "duration_type", "amenities"], [])
  | 4 => (triggerOk ["country_code", "state_code", "city_code"], [])
  | 5 =>
    if !hasImageIn s.form then
      (false, [⟨"Please upload at least one image", "info"⟩])
    else if !hasVideoIn s.form then
      (false, [⟨"Please upload at least one video", "info"⟩])
    else
      (true, [])
  | _ => (triggerOk [], [])

/-- `nextStep()` (lines 210-215): advance `setStep(min(current + 1, 5))`
exactly when `validateStep` passes. -/
def nextStep (triggerOk : List String → Bool) (s : AddPropertyState) :
    AddPropertyState × List Alert :=
  let v := validateStep triggerOk s
  if v.1 then ({ s with step := min (s.step + 1) 5 }, v.2) else (s, v.2)

/-- `prevStep()` (lines 217-219): `setStep(max(current - 1, 1))`, with no
validation of any kind. -/
def prevStep (s : AddPropertyState) : AddPropertyState :=
  { s with step := max (s.step - 1) 1 }

/-! ## AddProperty component — submission -/

/-- The scalar (non-file, non-amenities) keys of `PropertyFormData`, in
declaration order. -/
def scalarKeys : List String :=
  ["category_id", "title", "description", "number_of_rooms", "amount",
   "currency_code", "security_deposit", "security_deposit_currency_code",
   "duration", "duration_type", "country_code", "state_code", "city_code"]

/-- Dynamic access `data[key]` for the scalar fields. -/
def getScalar (d : PropertyFormData) : String → JVal
  | "category_id" => d.category_id
  | "title" => d.title
  | "description" => d.description
  | "number_of_rooms" => d.number_of_rooms
  | "amount" => d.amount
  | "currency_code" => d.currency_code
  | "security_deposit" => d.security_deposit
  | "security_deposit_currency_code" => d.security_deposit_currency_code
  | "duration" => d.duration
  | "duration_type" => d.duration_type
  | "country_code" => d.country_code
  | "state_code" => d.state_code
  | "city_code" => d.city_code
  | _ => .jsUndefined

/-- The scalar `Object.entries(data)` of the form record. -/
def scalarEntries (d : PropertyFormData) : List (String × JVal) :=
  scalarKeys.map (fun k => (k, getScalar d k))

/-- The ten media keys, `imageFields ++ videoFields`. -/
def fileKeys : List String := imageFields ++ videoFields

/-- The media `Object.entries(data)` of the form record. -/
def fileEntries (d : PropertyFormData) : List (String × Option JFile) :=
  fileKeys.map (fun k => (k, getFileField d k))

/-- `JSON.stringify` of a string array (the amenity names come from the
fixed `AVAILABLE_AMENITIES` vocabulary and contain no characters needing
escapes). -/
def jsonStringifyList (xs : List String) : String :=
  "[" ++ String.intercalate "," (xs.map (fun a => "\"" ++ a ++ "\"")) ++ "]"

/-- One value appended to the multipart `FormData`: a string or a `File`. -/
inductive FormValue where
  | str (s : String)
  | file (f : JFile)
deriving Repr, DecidableEq

/-- The multipart `FormData` built by `onSubmit` (lines 237-252): for each
form entry, a `File` value is appended as a file; the `amenities` key is
appended as `JSON.stringify(selectedAmenities)`; any other non-null,
non-undefined value is appended as `value.toString()`; finally the two
fixed entries `published='false'` and `can_rate='false'` are appended.
`Object.entries` iteration is modelled in the canonical field-declaration
order (scalars, then amenities, then media slots); the source relies on
JavaScript object key order, which the claims never depend on — only
membership matters. -/
def buildFormData (d : PropertyFormData) (selectedAmenities : List String) :
    List (String × FormValue) :=
  (scalarEntries d).filterMap
      (fun e => (JVal.toStr e.2).map (fun s => (e.1, FormValue.str s)))
    ++ [("amenities", FormValue.str (jsonStringifyList selectedAmenities))]
    ++ (fileEntries d).filterMap
      (fun e => e.2.map (fun f => (e.1, FormValue.file f)))
    ++ [("published", FormValue.str "false"), ("can_rate", FormValue.str "false")]

/-- The form values written by the success-path reset (lines 277-295):
each scalar `setValue` call with its literal argument, the amenities field
cleared, every media slot set to `null`. -/
def resetFormData : PropertyFormData where
  category_id := .jnum 0
  title := .jstr ""
  description := .jnull
  number_of_rooms := .jnull
  amount := .jnum 0
  currency_code := .jstr "NGN"
  security_deposit := .jnull
  security_deposit_currency_code := .jnull
  duration := .jnum 0
  duration_type := .jstr "month"
  amenities := []
  country_code := .jstr "NG"
  state_code := .jstr ""
  city_code := .jstr ""
  image1 := none
  image2 := none
  image3 := none
  image4 := none
  image5 := none
  video1 := none
  video2 := none
  video3 := none
  video4 := none
  video5 := none

/-- The component state after the success branch of `onSubmit` has run
(lines 275-306) and the `finally` block has cleared the loading flag. -/
def resetState : AddPropertyState where
  step := 1
  isLoading := false
  imagePreview := []
  videoPreview := []
  selectedAmenities := []
  form := resetFormData

/-- How the `axios.post` of `onSubmit` settles, seen from the component:
an HTTP-success response whose body carries a `success` flag, or a thrown
axios error with an optional HTTP status and an optional
`response.data.message` (both absent for network-level failures). -/
inductive SubmitOutcome where
  | ok (success : Bool)
  | err (status : Option Nat) (message : Option String)
deriving Repr, DecidableEq

/-- A POST request issued by the component: target URL and multipart
payload (the bearer header and `withCredentials` are fixed by the code and
not part of any claim). -/
structure Request where
  url : String
  payload : List (String × FormValue)
deriving Repr, DecidableEq

/-- Everything one `onSubmit` invocation produces: the final component
state, the requests issued, and the toasts raised. -/
structure SubmitResult where
  state : AddPropertyState
  requests : List Request
  alerts : List Alert
deriving Repr, DecidableEq

/-- JavaScript `m || fallback` on `error.response?.data?.message`
(line 314): the fallback also replaces an empty string, which is falsy. -/
def orElseStr (m : Option String) (fallback : String) : String :=
  match m with
  | some s => if s == "" then fallback else s
  | none => fallback

/-- The toast message of the `catch` branch of `onSubmit` (lines 307-316). -/
def submitErrorMessage (status : Option Nat) (message : Option String) : String :=
  if status = some 401 then
    "Your session has expired. Please login again."
  else if status = some 503 then
    "Service temporarily unavailable. Please try again later."
  else
    orElseStr message "Failed to add property. Please try again."

/-- `onSubmit(data)` (lines 221-320).  `data` is the form snapshot
react-hook-form passes in and `s` the component state; `token` is what
`getAuthToken()` reads from local storage and `outcome` how the request
would settle.  Not on step 5: silent return.  Missing image or video:
toast and return.  Missing token: toast and return with no request.
Otherwise exactly one POST of the built `FormData` is issued; a response
whose body's `success` flag is set resets every field, both previews, the
amenities and the step; a falsy flag does nothing; a thrown axios error is
mapped to a toast by HTTP status.  The `finally` block always clears the
loading flag. -/
def onSubmit (s : AddPropertyState) (data : PropertyFormData)
    (token : Option String) (outcome : SubmitOutcome) : SubmitResult :=
  if s.step ≠ 5 then
    ⟨s, [], []⟩
  else if !hasImageIn data || !hasVideoIn data then
    ⟨s, [], [⟨"Please upload at least one image and one video", "error"⟩]⟩
  else
    let s1 := { s with isLoading := true }
    let formData := buildFormData data s.selectedAmenities
    match token with
    | none =>
      ⟨{ s1 with isLoading := false }, [],
       [⟨"Please login to add a property", "error"⟩]⟩
    | some _ =>
      let req : Request := ⟨"https://api.rent9ja.com.ng/api/apartment", formData⟩
      match outcome with
      | .ok success =>
        if success then
          ⟨resetState, [req], [⟨"Property successfully added!", "success"⟩]⟩
        else
          ⟨{ s1 with isLoading := false }, [req], []⟩
      | .err status message =>
        ⟨{ s1 with isLoading := false }, [req],
         [⟨submitErrorMessage status message, "error"⟩]⟩

/-! ## Category fetch and subscription fetch -/

/-- `Category` (AddProperty.tsx lines 8-12). -/
structure Category where
  id : Int
  title : String
  slug : String
deriving Repr, DecidableEq

/-- A GET request issued by the frontend: URL and the value of its
`Authorization` header. -/
structure GetRequest where
  url : String
  authHeader : String
deriving Repr, DecidableEq

/-- The `Authorization` header value `` `Bearer ${token}` ``: a JavaScript
template literal renders `null` as the string `"null"` when no token is in
storage (`getAuthToken()` returned `null`). -/
def authHeaderValue (token : Option String) : String :=
  "Bearer " ++ (match token with | some t => t | none => "null")

/-- How the category GET settles: a response with a `success` flag and a
category list, or a thrown axios error with an optional HTTP status. -/
inductive FetchOutcome where
  | ok (success : Bool) (data : List Category)
  | err (status : Option Nat)
deriving Repr, DecidableEq

/-- What one `fetchCategories` run produces: the requests issued, the new
value of the `categories` state (`none` when it was left untouched) and the
toasts raised. -/
structure FetchCategoriesResult where
  requests : List GetRequest
  categories : Option (List Category)
  alerts : List Alert
deriving Repr, DecidableEq

/-- `fetchCategories` (AddProperty.tsx lines 111-131): the GET is issued
unconditionally — `getAuthToken()` is interpolated straight into the
`Authorization` header with no presence check — and `categories` is updated
only when the response's `success` flag is set; a thrown axios error toasts
only when its status is 401. -/
def fetchCategories (token : Option String) (outcome : FetchOutcome) :
    FetchCategoriesResult :=
  let req : GetRequest :=
    ⟨"https://api.rent9ja.com.ng/api/apartment-types", authHeaderValue token⟩
  match outcome with
  | .ok success data => ⟨[req], if success then some data else none, []⟩
  | .err status =>
    ⟨[req], none,
     if status = some 401 then [⟨"Please login to continue", "error"⟩] else []⟩

/-- How the subscriptions GET settles; the response body is opaque to this
function (it is returned as-is). -/
inductive SubsOutcome where
  | ok (body : String)
  | err (message : String)
deriving Repr, DecidableEq

/-- `getUserSubscriptions(page, search)`
(src/features/landing/api/subscriptions.ts lines 10-31): with no token in
storage it throws `Error('No authentication token found')` before any
request is made; otherwise it issues one bearer-authenticated GET and
returns the response body, rethrowing any axios error.  `baseURL` is
imported from `next.config` (not under src/) and passed as a parameter.
Returns the requests issued and the thrown-or-returned result. -/
def getUserSubscriptions (baseURL : String) (token : Option String)
    (page : Int) (search : String) (outcome : SubsOutcome) :
    List GetRequest × Except String String :=
  match token with
  | none => ([], .error "No authentication token found")
  | some t =>
    let req : GetRequest :=
      ⟨baseURL ++ "/subscriptions?page=" ++ toString page ++ "&search=" ++ search,
       "Bearer " ++ t⟩
    match outcome with
    | .ok body => ([req], .ok body)
    | .err message => ([req], .error message)

/-! ## Concrete sample inputs used by witnesses and counterexamples -/

/-- The plan of the spec's end-to-end checkout scenario. -/
def planBasic : PlansInterface where
  id := 1
  name := "Basic"
  price := 1000
  currency := "₦"
  invoice_interval := "month"

/-- A 2 MB image file (within the 3 MB limit). -/
def sampleImage : JFile := ⟨"photo.png", 2 * 1024 * 1024⟩

/-- A 5 MB video file (within the 10 MB limit). -/
def sampleVideo : JFile := ⟨"tour.mp4", 5 * 1024 * 1024⟩

/-- A fully populated form: all required scalar fields set, two amenities,
one image and one video attached. -/
def sampleFilledForm : PropertyFormData :=
  { resetFormData with
    category_id := .jnum 2
    title := .jstr "Lekki Flat"
    amount := .jnum 250000
    duration := .jnum 12
    state_code := .jstr "LA"
    city_code := .jstr "IKJ"
    amenities := ["WiFi", "Parking"]
    image1 := some sampleImage
    video1 := some sampleVideo }

/-- A component state sitting on step 5 ready to submit
`sampleFilledForm`. -/
def sampleSubmitState : AddPropertyState where
  step := 5
  isLoading := false
  imagePreview := [("image1", dataURL sampleImage)]
  videoPreview := [("video1", objectURL sampleVideo)]
  selectedAmenities := ["WiFi", "Parking"]
  form := sampleFilledForm

/-! ## Helper lemmas -/

/-- Membership in the scalar entry list, in terms of the key list and the
dynamic getter. -/
theorem mem_scalarEntries {d : PropertyFormData} {k : String} {v : JVal} :
    (k, v) ∈ scalarEntries d ↔ k ∈ scalarKeys ∧ v = getScalar d k := by
  simp only [scalarEntries, List.mem_map, Prod.mk.injEq]
  constructor
  · rintro ⟨a, ha, rfl, rfl⟩
    exact ⟨ha, rfl⟩
  · rintro ⟨hk, rfl⟩
    exact ⟨k, hk, rfl, rfl⟩

/-- Membership in the media entry list, in terms of the key list and the
dynamic getter. -/
theorem mem_fileEntries {d : PropertyFormData} {k : String} {v : Option JFile} :
    (k, v) ∈ fileEntries d ↔ k ∈ fileKeys ∧ v = getFileField d k := by
  simp only [fileEntries, List.mem_map, Prod.mk.injEq]
  constructor
  · rintro ⟨a, ha, rfl, rfl⟩
    exact ⟨ha, rfl⟩
  · rintro ⟨hk, rfl⟩
    exact ⟨k, hk, rfl, rfl⟩

/-- Exactly which entries the multipart payload holds. -/
theorem mem_buildFormData {d : PropertyFormData} {amen : List String}
    {k : String} {fv : FormValue} :
    (k, fv) ∈ buildFormData d amen ↔
      ((k ∈ scalarKeys ∧ ∃ str, JVal.toStr (getScalar d k) = some str ∧ fv = .str str)
       ∨ (k = "amenities" ∧ fv = .str (jsonStringifyList amen))
       ∨ (k ∈ fileKeys ∧ ∃ f, getFileField d k = some f ∧ fv = .file f)
       ∨ (k = "published" ∧ fv = .str "false")
       ∨ (k = "can_rate" ∧ fv = .str "false")) := by
  unfold buildFormData
  constructor
  · intro h
    rcases List.mem_append.mp h with h | hfix
    · rcases List.mem_append.mp h with h | hfile
      · rcases List.mem_append.mp h with hscal | hamen
        · rcases List.mem_filterMap.mp hscal with ⟨⟨a, b⟩, hab, hsome⟩
          rcases mem_scalarEntries.mp hab with ⟨hk, rfl⟩
          rcases Option.map_eq_some'.mp hsome with ⟨s', hs', heq⟩
          cases heq
          exact Or.inl ⟨hk, s', hs', rfl⟩
        · rcases List.mem_singleton.mp hamen
          exact Or.inr (Or.inl ⟨rfl, rfl⟩)
      · rcases List.mem_filterMap.mp hfile with ⟨⟨a, b⟩, hab, hsome⟩
        rcases mem_fileEntries.mp hab with ⟨hk, rfl⟩
        rcases Option.map_eq_some'.mp hsome with ⟨f, hf, heq⟩
        cases heq
        exact Or.inr (Or.inr (Or.inl ⟨hk, f, hf, rfl⟩))
    · rcases List.mem_cons.mp hfix with heq | hcan
      · cases heq
        exact Or.inr (Or.inr (Or.inr (Or.inl ⟨rfl, rfl⟩)))
      · rcases List.mem_singleton.mp hcan
        exact Or.inr (Or.inr (Or.inr (Or.inr ⟨rfl, rfl⟩)))
  · rintro (⟨hk, s', hs', rfl⟩ | ⟨rfl, rfl⟩ | ⟨hk, f, hf, rfl⟩ | ⟨rfl, rfl⟩ | ⟨rfl, rfl⟩)
    · refine List.mem_append.mpr (Or.inl (List.mem_append.mpr (Or.inl
        (List.mem_append.mpr (Or.inl (List.mem_filterMap.mpr ?_))))))
      exact ⟨(k, getScalar d k), mem_scalarEntries.mpr ⟨hk, rfl⟩,
        Option.map_eq_some'.mpr ⟨s', hs', rfl⟩⟩
    · exact List.mem_append.mpr (Or.inl (List.mem_append.mpr (Or.inl
        (List.mem_append.mpr (Or.inr (List.mem_singleton.mpr rfl))))))
    · refine List.mem_append.mpr (Or.inl (List.mem_append.mpr (Or.inr
        (List.mem_filterMap.mpr ?_))))
      exact ⟨(k, getFileField d k), mem_fileEntries.mpr ⟨hk, rfl⟩,
        Option.map_eq_some'.mpr ⟨f, hf, rfl⟩⟩
    · exact List.mem_append.mpr (Or.inr (List.mem_cons.mpr (Or.inl rfl)))
    · exact List.mem_append.mpr (Or.inr (List.mem_cons.mpr
        (Or.inr (List.mem_singleton.mpr rfl))))

/-- The scalar keys and the media keys do not overlap, and none of the
scalar keys is one of the fixed keys. -/
theorem scalarKeys_separate :
    ∀ k ∈ scalarKeys, k ∉ fileKeys ∧ k ≠ "amenities" ∧ k ≠ "published" ∧ k ≠ "can_rate" := by
  decide

/-- When the submission pre-checks pass and a token is present, `onSubmit`
issues exactly the one POST of the built payload, whatever the outcome. -/
theorem onSubmit_requests_eq {s : AddPropertyState} {data : PropertyFormData}
    {t : String} {out : SubmitOutcome} (h5 : s.step = 5)
    (hi : hasImageIn data = true) (hv : hasVideoIn data = true) :
    (onSubmit s data (some t) out).requests =
      [⟨"https://api.rent9ja.com.ng/api/apartment",
        buildFormData data s.selectedAmenities⟩] := by
  cases out with
  | ok success => cases success <;> simp [onSubmit, h5, hi, hv]
  | err status message => simp [onSubmit, h5, hi, hv]

/-- The `finally` block of `onSubmit` leaves the loading flag cleared on
every path that set it, and the paths that return before setting it leave
it untouched. -/
theorem onSubmit_isLoading_final (s : AddPropertyState) (data : PropertyFormData)
    (token : Option String) (out : SubmitOutcome) (hL : s.isLoading = false) :
    (onSubmit s data token out).state.isLoading = false := by
  unfold onSubmit
  split
  · exact hL
  · split
    · exact hL
    · cases token with
      | none => rfl
      | some t =>
        cases out with
        | ok success =>
          cases success
          · rfl
          · rfl
        | err status message => rfl

/-! ## Claim theorems -/

/-- Claim C1 (refuted — code bug): selecting a plan id absent from the
supplied list does NOT leave `selectedPlan` unchanged.  With
`plans = [planBasic]` (the only id is 1), a previously selected plan, and
the absent id 2, `filter` returns the empty array — truthy in JavaScript —
so the `if (set)` guard passes and `setSelectedPlan(set[0])` stores
`undefined`, clearing the selection. -/
theorem selectedPlanIs_absent_id_clears :
    selectedPlanIs (some [planBasic]) 2 (some planBasic) = none ∧
    selectedPlanIs (some [planBasic]) 2 (some planBasic) ≠ some planBasic := by
  decide

/-- Claim C3: at step 5, `validateStep` returns false exactly when no image
file or no video file is attached; in that case at least one toast is
raised; and the verdict is independent of the structural validator's
verdicts (the `trigger` oracle), hence of every other form field's
validity. -/
theorem validateStep_step5_spec (tr tr' : List String → Bool)
    (s : AddPropertyState) (h5 : s.step = 5) :
    ((validateStep tr s).1 = false ↔
      (hasImageIn s.form = false ∨ hasVideoIn s.form = false)) ∧
    ((validateStep tr s).1 = false → (validateStep tr s).2 ≠ []) ∧
    validateStep tr s = validateStep tr' s := by
  obtain ⟨st, lo, ip, vp, am, fd⟩ := s
  simp only at h5
  subst h5
  cases hi : hasImageIn fd <;> cases hv : hasVideoIn fd <;>
    simp [validateStep, hi, hv]

/-- Witness for C3: on a fresh form moved to step 5 (no files attached),
`validateStep` returns false. -/
theorem validateStep_step5_spec_witness :
    (validateStep (fun _ => true)
      { initialAddPropertyState with step := 5 }).1 = false :=
  (validateStep_step5_spec (fun _ => true) (fun _ => false)
    { initialAddPropertyState with step := 5 } rfl).1.mpr (Or.inl (by decide))

/-- Claim C4: a file strictly larger than the threshold of its type
(3 MB for images, 10 MB for videos) is rejected by `handleFileChange` with
a toast and no state change at all — nothing stored in the form field, no
preview entry, everything else untouched. -/
theorem handleFileChange_oversized_rejected (field : String) (ftype : FileType)
    (f : JFile) (s : AddPropertyState) (h : maxSizeFor ftype < f.size) :
    (handleFileChange field ftype (some f) s).state = s ∧
    (handleFileChange field ftype (some f) s).alerts ≠ [] ∧
    MAX_IMAGE_SIZE = 3 * 1024 * 1024 ∧ MAX_VIDEO_SIZE = 10 * 1024 * 1024 := by
  refine ⟨?_, ?_, rfl, rfl⟩ <;> simp [handleFileChange, h]

/-- Witness for C4: a 3 MB + 1 byte image is rejected without touching a
fresh component's state. -/
theorem handleFileChange_oversized_rejected_witness :
    (handleFileChange "image1" .image (some ⟨"big.png", 3145729⟩)
      initialAddPropertyState).state = initialAddPropertyState :=
  (handleFileChange_oversized_rejected "image1" .image ⟨"big.png", 3145729⟩
    initialAddPropertyState (by decide)).1

/-- Claim C6: for every gateway in the list, selecting it with
`active = false` leaves the whole checkout state unchanged and raises the
"Gateway Not Available" notice; selecting it with `active = true` stores
that gateway (and raises nothing), after which — given a selected plan —
the render dispatch shows exactly that gateway's handler component. -/
theorem gateway_selection_spec (g : GatewayI) (s : CheckoutState)
    (hg : g ∈ gateways) :
    selectedPaymentMethodIs g.slug false s = (s, ["Gateway Not Available"]) ∧
    (selectedPaymentMethodIs g.slug true s).1.selectedGateway = some g ∧
    (selectedPaymentMethodIs g.slug true s).1.selectedPlan = s.selectedPlan ∧
    (selectedPaymentMethodIs g.slug true s).2 = [] ∧
    (∀ p, s.selectedPlan = some p →
      renderCheckout (selectedPaymentMethodIs g.slug true s).1 =
        .handler g.component (some p)) := by
  have hsel : ∀ p, s.selectedPlan = some p →
      renderCheckout (⟨s.selectedPlan, some g⟩ : CheckoutState) =
        .handler g.component (some p) := by
    intro p hp
    simp [renderCheckout, hp]
  rcases List.mem_cons.mp hg with rfl | hg
  · exact ⟨rfl, rfl, rfl, rfl, hsel⟩
  · rcases List.mem_singleton.mp hg
    exact ⟨rfl, rfl, rfl, rfl, hsel⟩

/-- Witness for C6 (the spec's end-to-end checkout scenario): with plan
id 1 selected, choosing the active bank-transfer gateway renders the
BankTransfer handler carrying that plan — which, `RenderedView.handler`
being injective in its kind, is not the Paystack handler. -/
theorem gateway_selection_spec_witness :
    renderCheckout (selectedPaymentMethodIs bankTransferGateway.slug true
      ⟨some planBasic, none⟩).1 = .handler .bankTransfer (some planBasic) :=
  (gateway_selection_spec bankTransferGateway ⟨some planBasic, none⟩
    (by decide)).2.2.2.2 planBasic rfl

/-- Claim C9: from any step in 1..5, `nextStep` bumps the step by exactly
one exactly when `validateStep` passes (for steps below 5; the cap keeps
step 5 at 5), never moves past 5, and leaves the step alone on a failed
validation; `prevStep` — which takes no validator at all — always moves
down by one, floored at 1.  Both preserve 1 ≤ step ≤ 5. -/
theorem step_navigation_bounds (tr : List String → Bool)
    (s : AddPropertyState) (h1 : 1 ≤ s.step) (h5 : s.step ≤ 5) :
    (s.step < 5 →
      ((validateStep tr s).1 = true ↔ (nextStep tr s).1.step = s.step + 1)) ∧
    ((validateStep tr s).1 = false → (nextStep tr s).1.step = s.step) ∧
    1 ≤ (nextStep tr s).1.step ∧ (nextStep tr s).1.step ≤ 5 ∧
    (1 < s.step → (prevStep s).step + 1 = s.step) ∧
    (s.step = 1 → (prevStep s).step = 1) ∧
    1 ≤ (prevStep s).step ∧ (prevStep s).step ≤ 5 := by
  unfold nextStep prevStep
  cases hv : (validateStep tr s).1 <;> simp [hv] <;> omega

/-- Witness for C9: on a fresh instance (step 1) with an always-passing
validator, `nextStep` lands on step 2. -/
theorem step_navigation_bounds_witness :
    (validateStep (fun _ => true) initialAddPropertyState).1 = true ↔
      (nextStep (fun _ => true) initialAddPropertyState).1.step =
        initialAddPropertyState.step + 1 :=
  (step_navigation_bounds (fun _ => true) initialAddPropertyState
    (by decide) (by decide)).1 (by decide)

/-- Claim C2 (refuted): the state after a successful submission is NOT the
state of a freshly mounted instance.  The success path runs explicit
`setValue` calls — `title` becomes the empty string, `category_id` the
number 0, `duration_type` the string 'month', and so on — whereas the
`useForm` `defaultValues` of a fresh mount leave those fields undefined. -/
theorem onSubmit_success_not_fresh_state :
    (onSubmit sampleSubmitState sampleFilledForm (some "tok")
      (.ok true)).state ≠ initialAddPropertyState ∧
    (onSubmit sampleSubmitState sampleFilledForm (some "tok")
      (.ok true)).state.form.title = .jstr "" ∧
    initialAddPropertyState.form.title = .jsUndefined := by
  decide

/-- Claim C2 as amended: after a submission whose response carries a truthy
success flag, the component state equals the fixed reset state — previews
empty, amenities empty, file slots cleared and step 1 exactly as on a fresh
mount, but with the scalar form fields set to the explicit reset values
(0, '', null, 'NGN', 'month', 'NG', …) instead of the fresh-mount
defaults, from which they differ. -/
theorem onSubmit_success_resets (s : AddPropertyState)
    (data : PropertyFormData) (t : String) (h5 : s.step = 5)
    (hi : hasImageIn data = true) (hv : hasVideoIn data = true) :
    (onSubmit s data (some t) (.ok true)).state = resetState ∧
    resetState.imagePreview = initialAddPropertyState.imagePreview ∧
    resetState.videoPreview = initialAddPropertyState.videoPreview ∧
    resetState.selectedAmenities = initialAddPropertyState.selectedAmenities ∧
    resetState.step = initialAddPropertyState.step ∧
    resetState.form ≠ initialAddPropertyState.form := by
  refine ⟨?_, rfl, rfl, rfl, rfl, by decide⟩
  simp [onSubmit, h5, hi, hv]

/-- Witness for C2 (amended): submitting the sample filled form
successfully lands exactly on the reset state. -/
theorem onSubmit_success_resets_witness :
    (onSubmit sampleSubmitState sampleFilledForm (some "tok")
      (.ok true)).state = resetState :=
  (onSubmit_success_resets sampleSubmitState sampleFilledForm "tok" rfl
    (by decide) (by decide)).1

/-- Claim C7: a failed submission request is reported by HTTP status —
401 yields the session-expired toast, 503 the retry-later toast, anything
else the server-provided message or the generic fallback (`orElseStr`
mirrors the JavaScript `||`, which also replaces an empty server message).
No field, preview, amenity or step is reset, and exactly one request was
issued (no automatic retry). -/
theorem onSubmit_error_classification (s : AddPropertyState)
    (data : PropertyFormData) (t : String) (status : Option Nat)
    (message : Option String) (h5 : s.step = 5)
    (hi : hasImageIn data = true) (hv : hasVideoIn data = true) :
    (status = some 401 →
      (onSubmit s data (some t) (.err status message)).alerts =
        [⟨"Your session has expired. Please login again.", "error"⟩]) ∧
    (status = some 503 →
      (onSubmit s data (some t) (.err status message)).alerts =
        [⟨"Service temporarily unavailable. Please try again later.", "error"⟩]) ∧
    (status ≠ some 401 → status ≠ some 503 →
      (onSubmit s data (some t) (.err status message)).alerts =
        [⟨orElseStr message "Failed to add property. Please try again.",
          "error"⟩]) ∧
    (onSubmit s data (some t) (.err status message)).state.form = s.form ∧
    (onSubmit s data (some t) (.err status message)).state.imagePreview =
      s.imagePreview ∧
    (onSubmit s data (some t) (.err status message)).state.videoPreview =
      s.videoPreview ∧
    (onSubmit s data (some t) (.err status message)).state.selectedAmenities =
      s.selectedAmenities ∧
    (onSubmit s data (some t) (.err status message)).state.step = s.step ∧
    (onSubmit s data (some t) (.err status message)).requests.length = 1 := by
  refine ⟨?_, ?_, ?_, ?_, ?_, ?_, ?_, ?_, ?_⟩ <;>
    simp [onSubmit, h5, hi, hv, submitErrorMessage]
  · intro h401
    simp [h401]
  · intro h503
    subst h503
    simp
  · intro h401 h503
    simp [h401, h503]

/-- Witness for C7: a 503 failure on the sample submission raises exactly
the retry-later toast. -/
theorem onSubmit_error_classification_witness :
    (onSubmit sampleSubmitState sampleFilledForm (some "tok")
      (.err (some 503) none)).alerts =
      [⟨"Service temporarily unavailable. Please try again later.", "error"⟩] :=
  (onSubmit_error_classification sampleSubmitState sampleFilledForm "tok"
    (some 503) none rfl (by decide) (by decide)).2.1 rfl

/-- Claim C8 (refuted for the category fetch): with no token in storage,
`fetchCategories` still sends its GET — the null token is interpolated
into the header as the literal string "Bearer null" — and, unless the
server answers 401, reports nothing to the user. -/
theorem fetchCategories_no_token_still_requests :
    (fetchCategories none (.err none)).requests =
      [⟨"https://api.rent9ja.com.ng/api/apartment-types", "Bearer null"⟩] ∧
    (fetchCategories none (.err none)).alerts = [] := by
  decide

/-- Claim C8 as amended: of the three protected calls, the subscription
fetch and the property submission short-circuit on a missing token — no
request is issued, and respectively an error is thrown and a toast raised —
but the category fetch issues its request regardless. -/
theorem no_token_short_circuits (base : String) (page : Int)
    (search : String) (outS : SubsOutcome) (outF : FetchOutcome)
    (s : AddPropertyState) (data : PropertyFormData) (out : SubmitOutcome)
    (h5 : s.step = 5) (hi : hasImageIn data = true)
    (hv : hasVideoIn data = true) :
    (getUserSubscriptions base none page search outS).1 = [] ∧
    (getUserSubscriptions base none page search outS).2 =
      .error "No authentication token found" ∧
    (onSubmit s data none out).requests = [] ∧
    (onSubmit s data none out).alerts =
      [⟨"Please login to add a property", "error"⟩] ∧
    (fetchCategories none outF).requests.length = 1 := by
  refine ⟨rfl, rfl, ?_, ?_, ?_⟩
  · simp [onSubmit, h5, hi, hv]
  · simp [onSubmit, h5, hi, hv]
  · cases outF <;> simp [fetchCategories]

/-- Witness for C8 (amended): concrete instantiation on the sample
submission state with every outcome fixed. -/
theorem no_token_short_circuits_witness :
    (onSubmit sampleSubmitState sampleFilledForm none (.ok true)).requests = [] :=
  (no_token_short_circuits "https://api.rent9ja.com.ng/api" 1 ""
    (.err "network") (.err none) sampleSubmitState sampleFilledForm
    (.ok true) rfl (by decide) (by decide)).2.2.1

/-- Claim C10: an HTTP-successful submission whose body carries a falsy
success flag raises no toast and leaves the component state exactly as it
was (the loading flag, set for the request's duration, ends false again);
and on every path of `onSubmit`, whatever the token and outcome, a run
started with `isLoading = false` ends with `isLoading = false`. -/
theorem onSubmit_falsy_success_frame (s : AddPropertyState)
    (data : PropertyFormData) (t : String) (h5 : s.step = 5)
    (hi : hasImageIn data = true) (hv : hasVideoIn data = true)
    (hL : s.isLoading = false) :
    (onSubmit s data (some t) (.ok false)).alerts = [] ∧
    (onSubmit s data (some t) (.ok false)).state = s ∧
    (∀ (s' : AddPropertyState) (data' : PropertyFormData)
        (token : Option String) (out : SubmitOutcome),
      s'.isLoading = false →
        (onSubmit s' data' token out).state.isLoading = false) := by
  refine ⟨?_, ?_, fun s' data' token out hL' =>
    onSubmit_isLoading_final s' data' token out hL'⟩
  · simp [onSubmit, h5, hi, hv]
  · obtain ⟨st, lo, ip, vp, am, fd⟩ := s
    simp only at h5 hL
    subst h5
    subst hL
    simp [onSubmit, hi, hv]

/-- Witness for C10: the sample submission with a falsy success flag
leaves the state untouched. -/
theorem onSubmit_falsy_success_frame_witness :
    (onSubmit sampleSubmitState sampleFilledForm (some "tok")
      (.ok false)).state = sampleSubmitState :=
  (onSubmit_falsy_success_frame sampleSubmitState sampleFilledForm "tok"
    rfl (by decide) (by decide) rfl).2.1

/-- Claim C5: a submission on step 5 with at least one image and one video
(and, per the spec's auth precondition, a stored token) issues exactly one
multipart POST; its payload contains every scalar field whose value is
neither null nor undefined (as its string rendering), the selected amenity
set JSON-serialized under the key 'amenities', each present file, and the
fixed entries published='false' and can_rate='false'; a scalar field whose
value is null (or undefined) contributes no entry at all. -/
theorem onSubmit_request_payload (s : AddPropertyState)
    (data : PropertyFormData) (t : String) (out : SubmitOutcome)
    (h5 : s.step = 5) (hi : hasImageIn data = true)
    (hv : hasVideoIn data = true) :
    (onSubmit s data (some t) out).requests.length = 1 ∧
    ∀ r ∈ (onSubmit s data (some t) out).requests,
      r.url = "https://api.rent9ja.com.ng/api/apartment" ∧
      (∀ k ∈ scalarKeys, ∀ str, JVal.toStr (getScalar data k) = some str →
        (k, .str str) ∈ r.payload) ∧
      (∀ k ∈ scalarKeys, JVal.toStr (getScalar data k) = none →
        ∀ fv, (k, fv) ∉ r.payload) ∧
      ("amenities", .str (jsonStringifyList s.selectedAmenities)) ∈ r.payload ∧
      (∀ k ∈ fileKeys, ∀ f, getFileField data k = some f →
        (k, .file f) ∈ r.payload) ∧
      ("published", .str "false") ∈ r.payload ∧
      ("can_rate", .str "false") ∈ r.payload := by
  rw [onSubmit_requests_eq h5 hi hv]
  refine ⟨rfl, ?_⟩
  intro r hr
  rcases List.mem_singleton.mp hr
  refine ⟨rfl, ?_, ?_, ?_, ?_, ?_, ?_⟩
  · intro k hk str hstr
    exact mem_buildFormData.mpr (Or.inl ⟨hk, str, hstr, rfl⟩)
  · intro k hk hnone fv hmem
    rcases scalarKeys_separate k hk with ⟨hnf, hna, hnp, hnc⟩
    rcases mem_buildFormData.mp hmem with
      ⟨_, str, hstr, _⟩ | ⟨ha, _⟩ | ⟨hf, _⟩ | ⟨hp, _⟩ | ⟨hc, _⟩
    · rw [hnone] at hstr
      exact Option.noConfusion hstr
    · exact hna ha
    · exact hnf hf
    · exact hnp hp
    · exact hnc hc
  · exact mem_buildFormData.mpr (Or.inr (Or.inl ⟨rfl, rfl⟩))
  · intro k hk f hf
    exact mem_buildFormData.mpr (Or.inr (Or.inr (Or.inl ⟨hk, f, hf, rfl⟩)))
  · exact mem_buildFormData.mpr (Or.inr (Or.inr (Or.inr (Or.inl ⟨rfl, rfl⟩))))
  · exact mem_buildFormData.mpr (Or.inr (Or.inr (Or.inr (Or.inr ⟨rfl, rfl⟩))))

/-- Witness for C5 (the spec's end-to-end wizard scenario): submitting the
sample form — a 2 MB image, a 5 MB video, all required scalars populated —
yields exactly one request. -/
theorem onSubmit_request_payload_witness :
    (onSubmit sampleSubmitState sampleFilledForm (some "tok")
      (.ok true)).requests.length = 1 :=
  (onSubmit_request_payload sampleSubmitState sampleFilledForm "tok"
    (.ok true) rfl (by decide) (by decide)).1

end RentNaija
